import Mathlib

/-!
Verification of the lexstyle LLM client (provider registry, request adapters,
router, option resolver) against its natural-language specification.

The TypeScript source is embedded shallowly:

* `Message`, `Provider`, `ProviderConfig`, `LlmOptions` mirror `types.ts`.
* Effectful adapter calls are defunctionalized: `callAnthropic` is modelled up
  to the outbound HTTP request it constructs (URL, headers, JSON body fields),
  and `callLLM` returns an `LlmCall` value recording which adapter it
  delegates to and with which arguments.  The HTTP transport itself and
  response parsing are outside the embedding.
* JavaScript truthiness is modelled explicitly where the source relies on it:
  `if (options.llm)`, `if (options.apiKey)`, `options.provider ? ... : ...`
  and `if (!model)` are truthiness tests, while `??` is nullish coalescing.
  An optional string field is a `Option String`; `some ""` is a present but
  falsy value, `none` is `undefined`.
* Thrown exceptions become `Except String` with the exact message text.
-/

/-- Message role, mirroring the union type `"system" | "user" | "assistant"`. -/
inductive Role where
  | system
  | user
  | assistant
deriving DecidableEq, Repr

/-- Chat message format for LLM functions (`types.ts`). -/
structure Message where
  role : Role
  content : String
deriving DecidableEq, Repr

/-- Provider configuration: base URL and default model (`types.ts`). -/
structure ProviderConfig where
  baseURL : String
  defaultModel : String
deriving DecidableEq, Repr

/-- Known providers with built-in base URL mapping (`types.ts`). -/
inductive Provider where
  | openai
  | anthropic
  | gemini
  | groq
  | together
  | mistral
  | openrouter
  | xai
  | deepseek
deriving DecidableEq, Repr

/-- The string tag of each provider, as written in the TypeScript union type. -/
def Provider.name : Provider → String
  | .openai => "openai"
  | .anthropic => "anthropic"
  | .gemini => "gemini"
  | .groq => "groq"
  | .together => "together"
  | .mistral => "mistral"
  | .openrouter => "openrouter"
  | .xai => "xai"
  | .deepseek => "deepseek"

/-- Known provider configurations (`PROVIDER_CONFIGS` in `client.ts`),
as a total map over the closed provider type. -/
def PROVIDER_CONFIGS : Provider → ProviderConfig
  | .openai => { baseURL := "https://api.openai.com/v1", defaultModel := "gpt-4o-mini" }
  | .anthropic => { baseURL := "https://api.anthropic.com", defaultModel := "claude-haiku-4-5-20251001" }
  | .gemini => { baseURL := "https://generativelanguage.googleapis.com/v1beta/openai", defaultModel := "gemini-2.0-flash" }
  | .groq => { baseURL := "https://api.groq.com/openai/v1", defaultModel := "llama-3.3-70b-versatile" }
  | .together => { baseURL := "https://api.together.xyz/v1", defaultModel := "meta-llama/Meta-Llama-3.1-8B-Instruct-Turbo" }
  | .mistral => { baseURL := "https://api.mistral.ai/v1", defaultModel := "mistral-small-latest" }
  | .openrouter => { baseURL := "https://openrouter.ai/api/v1", defaultModel := "" }
  | .xai => { baseURL := "https://api.x.ai/v1", defaultModel := "grok-3-mini-fast" }
  | .deepseek => { baseURL := "https://api.deepseek.com", defaultModel := "deepseek-chat" }

/-- The registry keys in object-literal declaration order
(`Object.keys(PROVIDER_CONFIGS)` preserves insertion order). -/
def providerDecls : List Provider :=
  [.openai, .anthropic, .gemini, .groq, .together, .mistral, .openrouter, .xai, .deepseek]

/-- Property names a plain object literal exposes through the JavaScript
`in` operator via its `Object.prototype` chain (the standard members).  For
these the guard `provider in PROVIDER_CONFIGS` passes even though they are
not registry keys. -/
def objectPrototypeKeys : List String :=
  ["constructor", "hasOwnProperty", "isPrototypeOf", "propertyIsEnumerable",
   "toLocaleString", "toString", "valueOf",
   "__defineGetter__", "__defineSetter__", "__lookupGetter__", "__lookupSetter__",
   "__proto__"]

/-- The JavaScript `provider in PROVIDER_CONFIGS` test: true for an own
registry key or for a property inherited from `Object.prototype`. -/
def jsInProviderConfigs (provider : String) : Bool :=
  providerDecls.any (fun p => p.name == provider)
    || objectPrototypeKeys.any (fun k => k == provider)

/-- The runtime value of the indexing `PROVIDER_CONFIGS[provider]` once the
`in` guard has passed: an own registry entry, or the member inherited from
`Object.prototype` (a function, not a `ProviderConfig`), which the
TypeScript cast `provider as Provider` lets through unchecked. -/
inductive RegistryLookup where
  | config (c : ProviderConfig)
  | protoMember (name : String)
deriving DecidableEq, Repr

/-- Reading `.defaultModel` off the looked-up value: an own entry carries
its default model; an inherited prototype member has no such property, so
the access yields `undefined`. -/
def RegistryLookup.defaultModel? : RegistryLookup → Option String
  | .config c => some c.defaultModel
  | .protoMember _ => none

/-- The indexing step `PROVIDER_CONFIGS[provider as Provider]`. -/
def providerConfigsGet (provider : String) : RegistryLookup :=
  match providerDecls.find? (fun p => p.name == provider) with
  | some p => RegistryLookup.config (PROVIDER_CONFIGS p)
  | none => RegistryLookup.protoMember provider

/-- Model of `getProviderConfig` from `client.ts`: guard with the JS `in`
test (own keys and the `Object.prototype` chain); on a miss, throw an error
naming the value and listing the registry keys comma-joined in declaration
order; otherwise return the indexed value. -/
def getProviderConfig (provider : String) : Except String RegistryLookup :=
  if !jsInProviderConfigs provider then
    let valid := String.intercalate ", " (providerDecls.map Provider.name)
    Except.error ("Unknown provider \"" ++ provider ++ "\". Valid providers: " ++ valid)
  else
    Except.ok (providerConfigsGet provider)

/-- Strip all trailing `/` characters: the `.replace(/\/+$/, "")` step
(written over the character list so it computes by structural recursion). -/
def stripTrailingSlashes (s : String) : String :=
  ⟨(s.data.reverse.dropWhile (fun c => c == '/')).reverse⟩

/-- Strip one trailing `/v1` suffix, case-insensitively in the letter:
the `.replace(/\/v1$/i, "")` step. -/
def stripV1Suffix (s : String) : String :=
  match s.data.reverse with
  | '1' :: 'v' :: '/' :: rest => ⟨rest.reverse⟩
  | '1' :: 'V' :: '/' :: rest => ⟨rest.reverse⟩
  | _ => s

/-- The outbound HTTP request `callAnthropic` constructs: the request URL,
the JSON body fields, and the authentication/version headers. -/
structure AnthropicRequest where
  url : String
  model : String
  max_tokens : Nat
  messages : List Message
  system : Option String
  apiKeyHeader : String
  anthropicVersion : String
deriving DecidableEq, Repr

/-- Model of `callAnthropic` from `client.ts`, up to the outbound request it
builds (the `fetch` and response parsing are transport, outside the model).
Normalizes the base URL, extracts the first system message into the top-level
`system` field, and sends the non-system messages with a fixed
`max_tokens: 4096`. -/
def callAnthropic (messages : List Message) (apiKey model : String)
    (baseURL : Option String) : AnthropicRequest :=
  let resolvedBaseURL :=
    stripV1Suffix (stripTrailingSlashes (baseURL.getD (PROVIDER_CONFIGS .anthropic).baseURL))
  let url := resolvedBaseURL ++ "/v1/messages"
  let systemMsg := messages.find? (fun m => m.role == Role.system)
  let nonSystemMsgs := messages.filter (fun m => !(m.role == Role.system))
  { url := url
    model := model
    max_tokens := 4096
    messages := nonSystemMsgs.map (fun m => { role := m.role, content := m.content })
    system := systemMsg.map Message.content
    apiKeyHeader := apiKey
    anthropicVersion := "2023-06-01" }

/-- Defunctionalized adapter dispatch: which adapter `callLLM` delegates to,
with which arguments. -/
inductive LlmCall where
  | anthropicCall (messages : List Message) (apiKey model : String) (baseURL : Option String)
  | openaiCompatible (messages : List Message) (apiKey model : String) (baseURL : Option String)
deriving Repr

/-- Model of `callLLM` from `client.ts`: route to the Anthropic adapter when the
provider is `anthropic` (forwarding `baseURL` unmodified), else to the
OpenAI-compatible adapter with
`baseURL ?? (provider ? PROVIDER_CONFIGS[provider].baseURL : undefined)`. -/
def callLLM (messages : List Message) (apiKey model : String)
    (provider : Option Provider) (baseURL : Option String) : LlmCall :=
  if provider = some Provider.anthropic then
    LlmCall.anthropicCall messages apiKey model baseURL
  else
    let resolvedBaseURL :=
      baseURL.orElse (fun _ => provider.map (fun p => (PROVIDER_CONFIGS p).baseURL))
    LlmCall.openaiCompatible messages apiKey model resolvedBaseURL

/-- A JavaScript value stored in the `llm` option slot: either an actual
function, or a non-function value carrying its JS ToBoolean truthiness
(e.g. `"not a function"` is `notFn true`; `""`, `0`, `null` are
`notFn false`).  The TypeScript type only admits functions, but the claims
and the test-suite exercise non-function values via `as any`. -/
inductive LlmField where
  | fn (f : List Message → LlmCall)
  | notFn (truthy : Bool)

/-- Common LLM options shared by all fixer packages (`types.ts`).
`none` is an absent (`undefined`) field. -/
structure LlmOptions where
  apiKey : Option String := none
  provider : Option Provider := none
  model : Option String := none
  baseURL : Option String := none
  llm : Option LlmField := none

/-- JS truthiness of the `llm` option slot: absent and falsy non-function
values are falsy; functions are always truthy. -/
def llmFieldTruthy : Option LlmField → Bool
  | none => false
  | some (.fn _) => true
  | some (.notFn t) => t

/-- JS truthiness of an optional string: truthy iff present and non-empty. -/
def strTruthy : Option String → Bool
  | none => false
  | some s => !(s == "")

/-- The `InvalidConfiguration` message for an `apiKey` without a resolvable
model. -/
def modelRequiredMsg (packageName : String) : String :=
  packageName ++ " requires `model` when using `apiKey` (or use a `provider` with a default model)"

/-- The `InvalidConfiguration` message for options with neither `llm` nor
`apiKey`. -/
def requiresEitherMsg (packageName : String) : String :=
  packageName ++ " requires either `apiKey` + `model`, `apiKey` + `provider`, or `llm` option"

/-- Model of `resolveLlm` from `client.ts`.  Precedence: a truthy `llm` option must be
a function and is returned as-is; else a truthy `apiKey` resolves
`options.model ?? providerConfig?.defaultModel` and fails on a falsy result;
else the configuration is rejected.  The success value is the resolved
caller, itself a function from messages to a (defunctionalized) router
call. -/
def resolveLlm (options : LlmOptions) (packageName : String) :
    Except String (List Message → LlmCall) :=
  if llmFieldTruthy options.llm then
    match options.llm with
    | some (LlmField.fn f) => Except.ok f
    | _ => Except.error "`llm` option must be a function"
  else if strTruthy options.apiKey then
    match (match options.provider with
           | some p => (getProviderConfig p.name).map some
           | none => Except.ok none) with
    | Except.error e => Except.error e
    | Except.ok providerConfig =>
      let model := options.model.orElse (fun _ => providerConfig.bind RegistryLookup.defaultModel?)
      if !strTruthy model then
        Except.error (modelRequiredMsg packageName)
      else
        -- at this point `options.apiKey` and `model` are truthy strings;
        -- `getD ""` only extracts them (the default is unreachable)
        Except.ok (fun messages =>
          callLLM messages (options.apiKey.getD "") (model.getD "") options.provider options.baseURL)
  else
    Except.error (requiresEitherMsg packageName)

/-! ## Helper lemmas -/

/-- Looking up a registered provider by its own string tag always succeeds
and returns its registry entry. -/
theorem getProviderConfig_name (p : Provider) :
    getProviderConfig p.name = Except.ok (RegistryLookup.config (PROVIDER_CONFIGS p)) := by
  cases p <;> rfl

/-! ## Claims -/

/-- C3: for every function `f` and every caller name, `resolveLlm` with
`llm := f` returns exactly `f` itself: the identity passthrough, with no
wrapping and no modification. -/
theorem resolveLlm_custom_identity (f : List Message → LlmCall) (packageName : String) :
    resolveLlm { llm := some (LlmField.fn f) } packageName = Except.ok f := rfl

/-- C2, counterexample: the claim quantifies over every non-callable value in
the `llm` slot, but the source gates on JS truthiness (`if (options.llm)`),
so a falsy non-callable `llm` (such as `""`, `0` or `null`) is skipped and
resolution proceeds: here it succeeds via `apiKey`+`model` instead of
failing with the "must be a function" error. -/
theorem resolveLlm_falsy_noncallable_llm_ok :
    resolveLlm { apiKey := some "k", model := some "m", llm := some (LlmField.notFn false) } "pkg"
      = Except.ok (fun messages => callLLM messages "k" "m" none none) := rfl

/-- C2, amended: for every options record whose `llm` field holds a truthy
non-callable value, `resolveLlm` fails with the error message
"\`llm\` option must be a function", and this takes priority over any
`apiKey`-based resolution. -/
theorem resolveLlm_truthy_noncallable_llm_errors (o : LlmOptions) (packageName : String)
    (h : o.llm = some (LlmField.notFn true)) :
    resolveLlm o packageName = Except.error "`llm` option must be a function" := by
  simp [resolveLlm, h, llmFieldTruthy]

/-- Witness for the amended C2 at a concrete record, also showing that an
`apiKey`+`model` pair present alongside does not override the error. -/
theorem resolveLlm_truthy_noncallable_llm_errors_witness :
    resolveLlm { apiKey := some "k", model := some "m", llm := some (LlmField.notFn true) } "pkg"
      = Except.error "`llm` option must be a function" :=
  resolveLlm_truthy_noncallable_llm_errors
    { apiKey := some "k", model := some "m", llm := some (LlmField.notFn true) } "pkg" rfl

/-- C4, counterexample: `"toString"` is not one of the 9 registered
identifiers, yet the JS `in` guard finds it on the `Object.prototype`
chain, so `getProviderConfig` returns the inherited member without the
Unknown-provider error the claim demands for every unregistered string. -/
theorem getProviderConfig_toString_no_error :
    getProviderConfig "toString" = Except.ok (RegistryLookup.protoMember "toString") := rfl

/-- C4, amended: a string that is neither a registered identifier nor an
`Object.prototype` property name fails with a message naming the value and
enumerating the nine valid identifiers comma-joined in registry declaration
order; each registered identifier succeeds with its
`(baseURL, defaultModel)` pair; an `Object.prototype` property name slips
past the `in` guard and is returned as the inherited member, which is not a
`ProviderConfig`, without error. -/
theorem getProviderConfig_contract (s : String) :
    (s ∉ providerDecls.map Provider.name → s ∉ objectPrototypeKeys →
      getProviderConfig s = Except.error
        ("Unknown provider \"" ++ s ++ "\". Valid providers: " ++
          "openai, anthropic, gemini, groq, together, mistral, openrouter, xai, deepseek"))
  ∧ (∀ p : Provider, s = p.name →
      getProviderConfig s = Except.ok (RegistryLookup.config (PROVIDER_CONFIGS p)))
  ∧ (s ∈ objectPrototypeKeys →
      getProviderConfig s = Except.ok (RegistryLookup.protoMember s)) := by
  refine ⟨?_, ?_, ?_⟩
  · intro hs hproto
    have hin : jsInProviderConfigs s = false := by
      rw [jsInProviderConfigs, Bool.or_eq_false_iff]
      constructor
      · rw [List.any_eq_false]
        intro p hpmem
        simp only [beq_iff_eq]
        intro hps
        exact hs (hps ▸ List.mem_map_of_mem Provider.name hpmem)
      · rw [List.any_eq_false]
        intro x hx
        simp only [beq_iff_eq]
        intro hxs
        exact hproto (hxs ▸ hx)
    rw [getProviderConfig, hin]
    rfl
  · intro p hp
    rw [hp, getProviderConfig_name]
  · intro hproto
    simp only [objectPrototypeKeys, List.mem_cons, List.not_mem_nil, or_false] at hproto
    rcases hproto with rfl|rfl|rfl|rfl|rfl|rfl|rfl|rfl|rfl|rfl|rfl|rfl <;> rfl

/-- Witness for the amended C4 at the spec's concrete inputs plus an
inherited prototype member. -/
theorem getProviderConfig_contract_witness :
    getProviderConfig "invalid" = Except.error
      "Unknown provider \"invalid\". Valid providers: openai, anthropic, gemini, groq, together, mistral, openrouter, xai, deepseek"
  ∧ getProviderConfig "openai"
      = Except.ok (RegistryLookup.config
          { baseURL := "https://api.openai.com/v1", defaultModel := "gpt-4o-mini" })
  ∧ getProviderConfig "hasOwnProperty"
      = Except.ok (RegistryLookup.protoMember "hasOwnProperty") :=
  ⟨(getProviderConfig_contract "invalid").1 (by decide) (by decide),
   (getProviderConfig_contract "openai").2.1 Provider.openai rfl,
   (getProviderConfig_contract "hasOwnProperty").2.2 (by decide)⟩

/-- C8: with neither `llm` nor `apiKey` set, `resolveLlm` fails with the
message naming the caller and describing the three valid configuration
shapes; it never returns a caller. -/
theorem resolveLlm_no_config_errors (o : LlmOptions) (packageName : String)
    (hllm : o.llm = none) (hkey : o.apiKey = none) :
    resolveLlm o packageName = Except.error (requiresEitherMsg packageName) := by
  simp [resolveLlm, hllm, hkey, llmFieldTruthy, strTruthy]

/-- Witness for C8 at the spec's concrete input `resolveLlm({}, "mypkg")`. -/
theorem resolveLlm_no_config_errors_witness :
    resolveLlm {} "mypkg"
      = Except.error "mypkg requires either `apiKey` + `model`, `apiKey` + `provider`, or `llm` option" :=
  resolveLlm_no_config_errors {} "mypkg" rfl rfl

/-- C9: an empty-string `apiKey` is falsy, hence treated as absent: with no
(truthy) `llm` set, resolution falls through to the "requires either"
configuration error rather than proceeding to model resolution. -/
theorem resolveLlm_empty_apiKey_treated_absent (o : LlmOptions) (packageName : String)
    (hllm : o.llm = none) (hkey : o.apiKey = some "") :
    resolveLlm o packageName = Except.error (requiresEitherMsg packageName) := by
  simp [resolveLlm, hllm, hkey, llmFieldTruthy, strTruthy]

/-- Witness for C9 at the concrete record with only `apiKey := ""` set. -/
theorem resolveLlm_empty_apiKey_treated_absent_witness :
    resolveLlm { apiKey := some "" } "mypkg"
      = Except.error "mypkg requires either `apiKey` + `model`, `apiKey` + `provider`, or `llm` option" :=
  resolveLlm_empty_apiKey_treated_absent { apiKey := some "" } "mypkg" rfl rfl

/-- C5: the Anthropic adapter's outbound body carries exactly the non-system
messages in their original order, the content of the first system-role
message as the top-level `system` field (absent when no system message
exists), and the fixed `max_tokens` constant 4096. -/
theorem callAnthropic_body (messages : List Message) (apiKey model : String)
    (baseURL : Option String) :
    (callAnthropic messages apiKey model baseURL).messages
        = messages.filter (fun m => decide (m.role ≠ Role.system))
  ∧ (callAnthropic messages apiKey model baseURL).system
        = (messages.find? (fun m => decide (m.role = Role.system))).map Message.content
  ∧ (callAnthropic messages apiKey model baseURL).max_tokens = 4096
  ∧ ((∀ m ∈ messages, m.role ≠ Role.system) →
        (callAnthropic messages apiKey model baseURL).system = none) := by
  have hpred : ∀ m : Message, (!(m.role == Role.system)) = decide (m.role ≠ Role.system) := by
    intro m; cases m.role <;> rfl
  refine ⟨?_, rfl, rfl, ?_⟩
  · have h1 : (callAnthropic messages apiKey model baseURL).messages
        = messages.filter (fun m => !(m.role == Role.system)) := List.map_id _
    rw [h1]
    exact List.filter_congr (fun m _ => hpred m)
  · intro hnone
    have h2 : messages.find? (fun m => m.role == Role.system) = none := by
      rw [List.find?_eq_none]
      intro m hm
      simpa using hnone m hm
    have h3 : (callAnthropic messages apiKey model baseURL).system
        = (messages.find? (fun m => m.role == Role.system)).map Message.content := rfl
    rw [h3, h2]
    rfl

/-- Witness for C5 at the spec's two-message example and, for the
no-system-message hypothesis, at a single user message. -/
theorem callAnthropic_body_witness :
    (callAnthropic [⟨Role.system, "S"⟩, ⟨Role.user, "U"⟩] "k" "m" none).messages
        = [⟨Role.user, "U"⟩]
  ∧ (callAnthropic [⟨Role.system, "S"⟩, ⟨Role.user, "U"⟩] "k" "m" none).system = some "S"
  ∧ (callAnthropic [⟨Role.user, "U"⟩] "k" "m" none).system = none := by
  refine ⟨?_, ?_, ?_⟩
  · have h := (callAnthropic_body [⟨Role.system, "S"⟩, ⟨Role.user, "U"⟩] "k" "m" none).1
    simpa using h
  · have h := (callAnthropic_body [⟨Role.system, "S"⟩, ⟨Role.user, "U"⟩] "k" "m" none).2.1
    simpa using h
  · exact (callAnthropic_body [⟨Role.user, "U"⟩] "k" "m" none).2.2.2 (by decide)

/-- C6: the Anthropic request URL strips trailing slashes and then one
trailing `/v1` suffix (case-insensitive) from the supplied base URL,
defaults to `https://api.anthropic.com` when none is supplied, and appends
`/v1/messages`; in particular the two spec examples both resolve to
`https://x.example.com/v1/messages`. -/
theorem callAnthropic_url (messages : List Message) (apiKey model : String) :
    (∀ b, (callAnthropic messages apiKey model (some b)).url
        = stripV1Suffix (stripTrailingSlashes b) ++ "/v1/messages")
  ∧ (callAnthropic messages apiKey model none).url = "https://api.anthropic.com/v1/messages"
  ∧ (callAnthropic messages apiKey model (some "https://x.example.com/v1")).url
      = "https://x.example.com/v1/messages"
  ∧ (callAnthropic messages apiKey model (some "https://x.example.com/v1/")).url
      = "https://x.example.com/v1/messages" :=
  ⟨fun _ => rfl, rfl, rfl, rfl⟩

/-- C7: `callLLM` delegates to the Anthropic adapter exactly when the
provider is `anthropic`, forwarding `baseURL` unmodified; otherwise it
delegates to the OpenAI-compatible adapter with the effective base URL
resolved as the given `baseURL` if present, else the registry base URL of
the provider if present, else none. -/
theorem callLLM_routing (messages : List Message) (apiKey model : String)
    (provider : Option Provider) (baseURL : Option String) :
    (provider = some Provider.anthropic →
        callLLM messages apiKey model provider baseURL
          = LlmCall.anthropicCall messages apiKey model baseURL)
  ∧ (provider ≠ some Provider.anthropic →
        callLLM messages apiKey model provider baseURL
          = LlmCall.openaiCompatible messages apiKey model
              (match baseURL, provider with
               | some u, _ => some u
               | none, some p => some (PROVIDER_CONFIGS p).baseURL
               | none, none => none)) := by
  constructor
  · intro h
    subst h
    rfl
  · intro h
    rw [callLLM, if_neg h]
    cases baseURL <;> cases provider <;> rfl

/-- Witness for C7: an Anthropic route with a custom base URL forwarded
unmodified, and a non-Anthropic route falling back to the registry base
URL. -/
theorem callLLM_routing_witness :
    callLLM [] "k" "m" (some Provider.anthropic) (some "https://b.example")
      = LlmCall.anthropicCall [] "k" "m" (some "https://b.example")
  ∧ callLLM [] "k" "m" (some Provider.groq) none
      = LlmCall.openaiCompatible [] "k" "m" (some "https://api.groq.com/openai/v1") :=
  ⟨(callLLM_routing [] "k" "m" (some Provider.anthropic) (some "https://b.example")).1 rfl,
   (callLLM_routing [] "k" "m" (some Provider.groq) none).2 (by decide)⟩

/-- C10: an empty-string `model` does not fall back to the provider's
default model — even for a provider whose registry default is non-empty,
resolution fails with the model-required error. -/
theorem resolveLlm_empty_model_no_fallback (o : LlmOptions) (packageName k : String)
    (p : Provider) (hllm : o.llm = none) (hkey : o.apiKey = some k) (hk : k ≠ "")
    (hprov : o.provider = some p) (hmodel : o.model = some "")
    (hdef : (PROVIDER_CONFIGS p).defaultModel ≠ "") :
    resolveLlm o packageName = Except.error (modelRequiredMsg packageName) := by
  simp [resolveLlm, hllm, hkey, hprov, hmodel, llmFieldTruthy, strTruthy, hk,
        getProviderConfig_name, Except.map, Option.orElse]

/-- Witness for C10 at `apiKey = "k"`, `provider = groq`, `model = ""`. -/
theorem resolveLlm_empty_model_no_fallback_witness :
    resolveLlm { apiKey := some "k", provider := some Provider.groq, model := some "" } "mypkg"
      = Except.error "mypkg requires `model` when using `apiKey` (or use a `provider` with a default model)" :=
  resolveLlm_empty_model_no_fallback
    { apiKey := some "k", provider := some Provider.groq, model := some "" } "mypkg" "k"
    Provider.groq rfl rfl (by decide) rfl rfl (by decide)

/-- C1, counterexample: with `apiKey` set and `model` set to the empty
string alongside a provider whose registry default is non-empty, the claim
predicts a returned callable (either with the given model `""` or with the
provider default), but the code keeps `""` through `??` (nullish, not
truthiness, coalescing) and then fails the `if (!model)` truthiness test,
producing the model-required error. -/
theorem resolveLlm_empty_model_with_provider_errors :
    resolveLlm { apiKey := some "k", provider := some Provider.openai, model := some "" } "pkg"
      = Except.error "pkg requires `model` when using `apiKey` (or use a `provider` with a default model)" := rfl

/-- C1, amended: with `llm` unset and a non-empty `apiKey`, the effective
model is `options.model` when that is a non-empty string, else (when
`options.model` is unset) the provider's registry default model when a
provider is given and its default is non-empty; resolution fails with the
model-required error naming the caller when `options.model` is the empty
string, or when `options.model` is unset and either no provider is given or
the provider's default model is empty; otherwise it returns the callable
that invokes `callLLM` with the captured `apiKey`, the resolved model, the
`provider` and the `baseURL`. -/
theorem resolveLlm_apiKey_resolution (o : LlmOptions) (packageName k : String)
    (hllm : o.llm = none) (hkey : o.apiKey = some k) (hk : k ≠ "") :
    (∀ m, o.model = some m → m ≠ "" →
        resolveLlm o packageName
          = Except.ok (fun messages => callLLM messages k m o.provider o.baseURL))
  ∧ (o.model = some "" →
        resolveLlm o packageName = Except.error (modelRequiredMsg packageName))
  ∧ (∀ p, o.model = none → o.provider = some p → (PROVIDER_CONFIGS p).defaultModel ≠ "" →
        resolveLlm o packageName
          = Except.ok (fun messages =>
              callLLM messages k ((PROVIDER_CONFIGS p).defaultModel) o.provider o.baseURL))
  ∧ (o.model = none →
      (o.provider = none ∨ ∃ p, o.provider = some p ∧ (PROVIDER_CONFIGS p).defaultModel = "") →
        resolveLlm o packageName = Except.error (modelRequiredMsg packageName)) := by
  refine ⟨?_, ?_, ?_, ?_⟩
  · intro m hm hmne
    cases hpr : o.provider with
    | none =>
      simp [resolveLlm, hllm, hkey, hm, hpr, llmFieldTruthy, strTruthy, hk, hmne,
            Option.orElse]
    | some p =>
      simp [resolveLlm, hllm, hkey, hm, hpr, llmFieldTruthy, strTruthy, hk, hmne,
            getProviderConfig_name, Except.map, RegistryLookup.defaultModel?, Option.orElse]
  · intro hm
    cases hpr : o.provider with
    | none =>
      simp [resolveLlm, hllm, hkey, hm, hpr, llmFieldTruthy, strTruthy, hk, Option.orElse]
    | some p =>
      simp [resolveLlm, hllm, hkey, hm, hpr, llmFieldTruthy, strTruthy, hk,
            getProviderConfig_name, Except.map, RegistryLookup.defaultModel?, Option.orElse]
  · intro p hm hpr hdef
    simp [resolveLlm, hllm, hkey, hm, hpr, llmFieldTruthy, strTruthy, hk, hdef,
          getProviderConfig_name, Except.map, RegistryLookup.defaultModel?, Option.orElse]
  · intro hm hcase
    rcases hcase with hpr | ⟨p, hpr, hdef⟩
    · simp [resolveLlm, hllm, hkey, hm, hpr, llmFieldTruthy, strTruthy, hk, Option.orElse]
    · simp [resolveLlm, hllm, hkey, hm, hpr, hdef, llmFieldTruthy, strTruthy, hk,
            getProviderConfig_name, Except.map, RegistryLookup.defaultModel?, Option.orElse]

/-- Witness for the amended C1: an explicit model is used as-is, a provider
default is used when no model is given, and the openrouter empty default
yields the model-required error. -/
theorem resolveLlm_apiKey_resolution_witness :
    resolveLlm { apiKey := some "k", model := some "gpt-4o" } "pkg"
      = Except.ok (fun messages => callLLM messages "k" "gpt-4o" none none)
  ∧ resolveLlm { apiKey := some "k", provider := some Provider.openai } "pkg"
      = Except.ok (fun messages =>
          callLLM messages "k" "gpt-4o-mini" (some Provider.openai) none)
  ∧ resolveLlm { apiKey := some "k", provider := some Provider.openrouter } "pkg"
      = Except.error "pkg requires `model` when using `apiKey` (or use a `provider` with a default model)" :=
  ⟨(resolveLlm_apiKey_resolution { apiKey := some "k", model := some "gpt-4o" }
      "pkg" "k" rfl rfl (by decide)).1 "gpt-4o" rfl (by decide),
   (resolveLlm_apiKey_resolution { apiKey := some "k", provider := some Provider.openai }
      "pkg" "k" rfl rfl (by decide)).2.2.1 Provider.openai rfl rfl (by decide),
   (resolveLlm_apiKey_resolution { apiKey := some "k", provider := some Provider.openrouter }
      "pkg" "k" rfl rfl (by decide)).2.2.2 rfl
      (Or.inr ⟨Provider.openrouter, rfl, rfl⟩)⟩
